import Mathlib

/-!
# Verification of the facet-analyzer analytics pipeline

Shallow embedding of the core analytics modules of the repository
(`analysis/scoring.py`, `analysis/authority_analyzer.py`,
`analysis/facet_analyzer.py`, `analysis/http_verifier.py`,
`data/data_config.py`) and proofs about them.

Modelling conventions:
* Python `float` is modelled as `ℚ` (exact arithmetic); Python `int` as `ℤ`
  (or `ℕ` where the source value is a length/count).
* pandas DataFrames are modelled as Lists of row structures; a left join that
  can duplicate rows is modelled by `flatMap`; `fillna(0).astype(int)` by an
  explicit 0 default.
* Python regular-expression search (`re.search`, `Series.str.contains` with
  `regex=True`) is kept abstract: functions that use it take a
  `matcher : String → String → Bool` (pattern, text) parameter.  No claim in
  scope depends on the semantics of a particular regex.
* Wall-clock fields (`response_time_ms`, `verified_at`, `duration_seconds`)
  and presentation-only summary strings are omitted from the embedded result
  records; no claim mentions them.
* Python `sorted(key=…, reverse=True)` is modelled with `List.mergeSort`
  (both are stable sorts).
-/

namespace FacetAnalyzer

/-! ## Python string primitives

Structural (kernel-reducible) models of the Python string operations the
sources use.  Lean 4.14 strings are `List Char` wrappers, so these work on
`String.data`. -/

/-- Python `str.lower()` (ASCII; the inputs in scope are URLs and intent
labels). -/
def pyLower (s : String) : String :=
  String.mk (s.data.map Char.toLower)

/-- Python `str.strip()` (strip whitespace from both ends). -/
def pyStrip (s : String) : String :=
  String.mk (((s.data.dropWhile Char.isWhitespace).reverse.dropWhile
    Char.isWhitespace).reverse)

/-- Python `str.split(sep)` for a one-character separator, on the character
list. -/
def pySplitCharList (c : Char) : List Char → List (List Char)
  | [] => [[]]
  | h :: t =>
    match pySplitCharList c t with
    | [] => [[h]]
    | x :: xs => if h = c then [] :: x :: xs else (h :: x) :: xs

/-- Python `str.split(sep)` for a one-character separator. -/
def pySplitChar (c : Char) (s : String) : List String :=
  (pySplitCharList c s.data).map String.mk

/-- Substring occurrence on character lists. -/
def subOccurs (needle : List Char) : List Char → Bool
  | [] => needle.isEmpty
  | h :: t => needle.isPrefixOf (h :: t) || subOccurs needle t

/-- Python substring membership `sub in s`. -/
def pyContains (s sub : String) : Bool :=
  subOccurs sub.data s.data

/-- Python `str.startswith(pre)`. -/
def pyStartsWith (s pre : String) : Bool :=
  pre.data.isPrefixOf s.data

/-! ## analysis/scoring.py -/

/-- `ScoringWeights` dataclass (scoring.py lines 19–29): the eight
configurable weights, with the source's default values. -/
structure ScoringWeights where
  demand_semrush : ℚ
  demand_kp : ℚ
  traffic_gsc : ℚ
  traffic_adobe : ℚ
  demand_filters : ℚ
  commercial_intent : ℚ
  longtail_coverage : ℚ
  revenue_potential : ℚ
deriving Repr, DecidableEq

/-- The sum computed in `ScoringWeights.__post_init__` (scoring.py 33–35). -/
def weightsTotal (w : ScoringWeights) : ℚ :=
  w.demand_semrush + w.demand_kp + w.traffic_gsc +
    w.traffic_adobe + w.demand_filters + w.commercial_intent +
    w.longtail_coverage + w.revenue_potential

/-- `ScoringWeights.__post_init__` (scoring.py 31–46).  When the weights do
not sum to 1 within 0.01 they are rescaled by `1.0 / total`; in Python that
division raises `ZeroDivisionError` when `total == 0`, modelled here as
`none`. -/
def postInit (w : ScoringWeights) : Option ScoringWeights :=
  let total := weightsTotal w
  if |total - 1| > 1/100 then
    if total = 0 then
      none
    else
      let factor := 1 / total
      some ⟨w.demand_semrush * factor, w.demand_kp * factor,
            w.traffic_gsc * factor, w.traffic_adobe * factor,
            w.demand_filters * factor, w.commercial_intent * factor,
            w.longtail_coverage * factor, w.revenue_potential * factor⟩
  else
    some w

/-- The normalisation thresholds (`FacetScorer.DEFAULT_THRESHOLDS`,
scoring.py 86–95). -/
structure Thresholds where
  demand_very_high : ℚ
  demand_high : ℚ
  demand_medium : ℚ
  demand_low : ℚ
  traffic_very_high : ℚ
  traffic_high : ℚ
  traffic_medium : ℚ
  traffic_low : ℚ
deriving Repr, DecidableEq

/-- `FacetScorer.DEFAULT_THRESHOLDS` (scoring.py 86–95). -/
def DEFAULT_THRESHOLDS : Thresholds :=
  ⟨100000, 50000, 10000, 1000, 50000, 10000, 1000, 100⟩

/-- `FacetScorer._normalize_demand` (scoring.py 108–119). -/
def normalizeDemand (t : Thresholds) (value : ℚ) : ℚ :=
  if value ≥ t.demand_very_high then 100
  else if value ≥ t.demand_high then
    70 + 30 * (value - t.demand_high) / (t.demand_very_high - t.demand_high)
  else if value ≥ t.demand_medium then
    40 + 30 * (value - t.demand_medium) / (t.demand_high - t.demand_medium)
  else if value ≥ t.demand_low then
    10 + 30 * (value - t.demand_low) / (t.demand_medium - t.demand_low)
  else
    10 * value / max t.demand_low 1

/-- `FacetScorer._normalize_traffic` (scoring.py 121–132). -/
def normalizeTraffic (t : Thresholds) (value : ℚ) : ℚ :=
  if value ≥ t.traffic_very_high then 100
  else if value ≥ t.traffic_high then
    70 + 30 * (value - t.traffic_high) / (t.traffic_very_high - t.traffic_high)
  else if value ≥ t.traffic_medium then
    40 + 30 * (value - t.traffic_medium) / (t.traffic_high - t.traffic_medium)
  else if value ≥ t.traffic_low then
    10 + 30 * (value - t.traffic_low) / (t.traffic_medium - t.traffic_low)
  else
    10 * value / max t.traffic_low 1

/-- One pass of the loop body in the combined-intent branch of
`FacetScorer._normalize_intent` (scoring.py 148–156): score contributed by a
single comma-separated intent token, `none` when no branch fires. -/
def intentScoreOfToken (i : String) : Option ℚ :=
  if pyStartsWith i "c" then some 80
  else if pyStartsWith i "t" then some 100
  else if pyStartsWith i "i" then some 40
  else if pyStartsWith i "n" then some 60
  else none

/-- `FacetScorer._normalize_intent` (scoring.py 134–162) on a string input.
The single-value path iterates `intent_scores` in dict order
(transactional, commercial, informational, navigational) testing
`startswith(key[0])`. -/
def normalizeIntent (intent : String) : ℚ :=
  let intentLower := pyStrip (pyLower intent)
  if pyContains intentLower "," then
    let intents := (pySplitChar ',' intentLower).map pyStrip
    let scores := intents.filterMap intentScoreOfToken
    match scores.max? with
    | some m => m
    | none => 50
  else
    if pyStartsWith intentLower "t" then 100
    else if pyStartsWith intentLower "c" then 80
    else if pyStartsWith intentLower "i" then 40
    else if pyStartsWith intentLower "n" then 60
    else 50

/-- Python's `round` on a rational value: round half to even. -/
def pyRoundInt (q : ℚ) : ℤ :=
  if Int.fract q < 1/2 then ⌊q⌋
  else if 1/2 < Int.fract q then ⌊q⌋ + 1
  else if ⌊q⌋ % 2 = 0 then ⌊q⌋ else ⌊q⌋ + 1

/-- Python's `round(x, 2)`. -/
def pyRound2 (q : ℚ) : ℚ := (pyRoundInt (q * 100) : ℚ) / 100

/-- `ScoreBreakdown` dataclass (scoring.py 61–79).  `raw_values` (a
heterogeneous echo of the inputs) is not modelled; no claim mentions it. -/
structure ScoreBreakdown where
  facet_name : String
  total_score : ℚ
  components : List (String × ℚ)
  confidence : String
  data_sources_count : ℕ
deriving Repr, DecidableEq

/-- `FacetScorer.score_facet` (scoring.py 164–245).  The scorer's weights and
thresholds (`self.weights`, `self.thresholds`) are the first two arguments;
the remaining arguments are the Python keyword arguments in source order. -/
def scoreFacet (weights : ScoringWeights) (thresholds : Thresholds)
    (facet_name : String) (demand_semrush demand_kp traffic_gsc
    traffic_adobe demand_filters : ℚ) (intent : String)
    (longtail_count : ℤ) (revenue : ℚ) : ScoreBreakdown :=
  let cDemandSemrush := normalizeDemand thresholds demand_semrush * weights.demand_semrush
  let cDemandKp := normalizeDemand thresholds demand_kp * weights.demand_kp
  let cTrafficGsc := normalizeTraffic thresholds traffic_gsc * weights.traffic_gsc
  let cTrafficAdobe := normalizeTraffic thresholds traffic_adobe * weights.traffic_adobe
  let cDemandFilters := normalizeDemand thresholds demand_filters * weights.demand_filters
  let cIntent := normalizeIntent intent * weights.commercial_intent
  let longtailScore := min ((longtail_count : ℚ) / 100) 1 * 100
  let cLongtail := longtailScore * weights.longtail_coverage
  let revenueScore := min (revenue / 100000) 1 * 100
  let cRevenue := revenueScore * weights.revenue_potential
  let components := [("demand_semrush", cDemandSemrush), ("demand_kp", cDemandKp),
    ("traffic_gsc", cTrafficGsc), ("traffic_adobe", cTrafficAdobe),
    ("demand_filters", cDemandFilters), ("commercial_intent", cIntent),
    ("longtail_coverage", cLongtail), ("revenue_potential", cRevenue)]
  let total := cDemandSemrush + cDemandKp + cTrafficGsc + cTrafficAdobe +
    cDemandFilters + cIntent + cLongtail + cRevenue
  let dataSources : ℕ :=
    (if demand_semrush > 0 then 1 else 0) + (if demand_kp > 0 then 1 else 0) +
    (if traffic_gsc > 0 then 1 else 0) + (if traffic_adobe > 0 then 1 else 0) +
    (if demand_filters > 0 then 1 else 0)
  let confidence :=
    if dataSources ≥ 4 then "high"
    else if dataSources ≥ 2 then "medium"
    else "low"
  ⟨facet_name, pyRound2 total,
    components.map (fun p => (p.1, pyRound2 p.2)), confidence, dataSources⟩

/-- All eight weights non-negative. -/
def WeightsNonneg (w : ScoringWeights) : Prop :=
  0 ≤ w.demand_semrush ∧ 0 ≤ w.demand_kp ∧ 0 ≤ w.traffic_gsc ∧
    0 ≤ w.traffic_adobe ∧ 0 ≤ w.demand_filters ∧ 0 ≤ w.commercial_intent ∧
    0 ≤ w.longtail_coverage ∧ 0 ≤ w.revenue_potential

instance (w : ScoringWeights) : Decidable (WeightsNonneg w) := by
  unfold WeightsNonneg; infer_instance

/-! ## analysis/authority_analyzer.py -/

/-- A row of the crawl DataFrame as the analyzer reads it: URL column
(`Dirección`/`url`), response-code column (`Código de respuesta`/
`status_code`) and `wrapper_link_count` (defaulted to 0 by `__init__` when
the column is missing). -/
structure CrawlRow where
  url : String
  status_code : ℤ
  wrapper_link_count : ℤ
deriving Repr, DecidableEq

/-- A row of the Adobe traffic DataFrame (`url_full`, `visits_seo`). -/
structure AdobeRow where
  url_full : String
  visits_seo : ℤ
deriving Repr, DecidableEq

/-- A row of `self.merged`: a crawl row enriched with `visits_seo`. -/
structure MergedRow where
  url : String
  status_code : ℤ
  wrapper_link_count : ℤ
  visits_seo : ℤ
deriving Repr, DecidableEq

/-- `AuthorityAnalyzer._merge_data` (authority_analyzer.py 66–87).
`adobe = none` models the analyzer being constructed without a traffic table
or with one lacking the `url_full` column; `some rows` models a table with
that column.  A pandas left merge duplicates a crawl row once per matching
traffic row and `fillna(0)` fills unmatched rows with 0. -/
def mergeData (crawl : List CrawlRow) (adobe : Option (List AdobeRow)) :
    List MergedRow :=
  match adobe with
  | none => crawl.map (fun r => ⟨r.url, r.status_code, r.wrapper_link_count, 0⟩)
  | some rows =>
    if rows.isEmpty then
      crawl.map (fun r => ⟨r.url, r.status_code, r.wrapper_link_count, 0⟩)
    else
      crawl.flatMap (fun r =>
        let ms := rows.filter (fun a => a.url_full == r.url)
        if ms.isEmpty then [⟨r.url, r.status_code, r.wrapper_link_count, 0⟩]
        else ms.map (fun a => ⟨r.url, r.status_code, r.wrapper_link_count, a.visits_seo⟩))

/-- `AuthorityLeak` dataclass (authority_analyzer.py 14–32). -/
structure AuthorityLeak where
  url : String
  traffic_seo : ℤ
  wrapper_links : ℤ
  leak_type : String
  severity : String
  recommendation : String
deriving Repr, DecidableEq

/-- `AuthorityAnalyzer.analyze_no_distribution` (authority_analyzer.py
89–122), as a function of `self.merged` and `min_traffic` (default 100). -/
def analyzeNoDistribution (merged : List MergedRow) (min_traffic : ℤ) :
    List AuthorityLeak :=
  let urls200 := merged.filter (fun r => r.status_code == 200)
  let noDist := urls200.filter (fun r =>
    r.wrapper_link_count == 0 && decide (r.visits_seo ≥ min_traffic))
  let leaks := noDist.map (fun r =>
    let traffic := r.visits_seo
    let severity :=
      if traffic > 5000 then "high"
      else if traffic > 1000 then "medium" else "low"
    (⟨r.url, traffic, 0, "no_distribution", severity,
      "Añadir seoFilterWrapper con enlaces a facetas relevantes"⟩ : AuthorityLeak))
  leaks.mergeSort (fun a b => decide (b.traffic_seo ≤ a.traffic_seo))

/-- `AuthorityAnalyzer.analyze_dilution` (authority_analyzer.py 124–157), as
a function of `self.merged`, `max_links` (default 10) and `min_traffic`
(default 500). -/
def analyzeDilution (merged : List MergedRow) (max_links min_traffic : ℤ) :
    List AuthorityLeak :=
  let urls200 := merged.filter (fun r => r.status_code == 200)
  let dilution := urls200.filter (fun r =>
    decide (r.wrapper_link_count ≥ max_links) && decide (r.visits_seo < min_traffic))
  let leaks := dilution.map (fun r =>
    let links : ℤ := r.wrapper_link_count
    let traffic : ℤ := r.visits_seo
    let ratio : ℚ := (links : ℚ) / ((max traffic 1 : ℤ) : ℚ)
    let severity :=
      if ratio > 0.5 then "high"
      else if ratio > 0.1 then "medium" else "low"
    (⟨r.url, traffic, links, "dilution", severity,
      s!"Reducir de {links} a máximo {max_links} enlaces"⟩ : AuthorityLeak))
  leaks.mergeSort (fun a b => decide (b.wrapper_links ≤ a.wrapper_links))

/-- `AuthorityAnalyzer.analyze_dead_ends` (authority_analyzer.py 159–197), as
a function of `self.crawl`, `self.adobe_urls` and the abstract regex
matcher used by `Series.str.contains(pattern, case=False, regex=True)`.
Returns `(len(urls_404), total_traffic_lost, facet_counts)`. -/
def analyzeDeadEnds (crawl : List CrawlRow) (adobe : Option (List AdobeRow))
    (matcher : String → String → Bool) : ℕ × ℤ × List (String × ℕ) :=
  let urls404 := crawl.filter (fun r => r.status_code == 404)
  let totalTrafficLost : ℤ :=
    match adobe with
    | none => 0
    | some rows =>
      if rows.isEmpty then 0
      else (urls404.flatMap (fun r =>
        (rows.filter (fun a => a.url_full == r.url)).map (·.visits_seo))).sum
  let patterns : List (String × String) :=
    [("TAMAÑO", "pulgadas|litros|cm"),
     ("CONECTIVIDAD", "5g|wifi|nfc"),
     ("MEMORIA", "gb-ram"),
     ("ALMACENAMIENTO", "gb(?!-ram)|tb"),
     ("ESTADO", "reacondicionado|nuevo")]
  let facetCounts := patterns.foldl (fun acc p =>
    let count := (urls404.filter (fun r => matcher p.2 r.url)).length
    if count > 0 then acc ++ [(p.1, count)] else acc) []
  (urls404.length, totalTrafficLost, facetCounts)

/-- `AuthorityAnalysisResult` dataclass (authority_analyzer.py 35–45).  The
`summary` field (a presentation markdown string) is not modelled; no claim
mentions it. -/
structure AuthorityAnalysisResult where
  total_leaks : ℕ
  total_traffic_affected : ℤ
  leaks_by_type : List (String × ℕ)
  top_leaks : List AuthorityLeak
  dead_ends_count : ℕ
  dead_ends_traffic : ℤ
  dead_ends_by_facet : List (String × ℕ)
deriving Repr, DecidableEq

/-- `AuthorityAnalyzer.get_full_analysis` (authority_analyzer.py 199–247):
runs the three analyses with their default thresholds and merges the first
two leak lists into the traffic-ranked `top_leaks` (at most 20). -/
def getFullAnalysis (crawl : List CrawlRow) (adobe : Option (List AdobeRow))
    (matcher : String → String → Bool) : AuthorityAnalysisResult :=
  let merged := mergeData crawl adobe
  let noDistLeaks := analyzeNoDistribution merged 100
  let noDistTraffic := (noDistLeaks.map (·.traffic_seo)).sum
  let dilutionLeaks := analyzeDilution merged 10 500
  let deadEnds := analyzeDeadEnds crawl adobe matcher
  let allLeaks := noDistLeaks ++ dilutionLeaks
  let topLeaks :=
    (allLeaks.mergeSort (fun a b => decide (b.traffic_seo ≤ a.traffic_seo))).take 20
  ⟨noDistLeaks.length + dilutionLeaks.length,
   noDistTraffic + deadEnds.2.1,
   [("no_distribution", noDistLeaks.length),
    ("dilution", dilutionLeaks.length),
    ("dead_ends", deadEnds.1)],
   topLeaks, deadEnds.1, deadEnds.2.1, deadEnds.2.2⟩

/-! ## analysis/facet_analyzer.py -/

/-- The `facet_data` dict passed to
`FacetAnalyzer._calculate_opportunity_score` by `analyze_facet`
(facet_analyzer.py 301–308): all six keys are always present there. -/
structure FacetData where
  urls_200 : ℤ
  urls_404 : ℤ
  demand_adobe : ℤ
  demand_keywords : ℤ
  traffic_seo : ℤ
  in_wrapper : Bool
deriving Repr, DecidableEq

/-- `FacetAnalyzer._calculate_opportunity_score` (facet_analyzer.py
205–251). -/
def calculateOpportunityScore (d : FacetData) : ℚ :=
  if d.urls_200 = 0 then
    let demand := d.demand_adobe + d.demand_keywords
    if demand > 100000 then 30
    else if demand > 50000 then 20
    else if demand > 10000 then 10
    else 5
  else
    let demand := d.demand_adobe + d.demand_keywords
    let demandPoints : ℚ :=
      if demand > 100000 then 40
      else if demand > 50000 then 30
      else if demand > 10000 then 20
      else if demand > 1000 then 10 else 0
    let urlsPoints : ℚ :=
      if d.urls_200 > 100 then 30
      else if d.urls_200 > 10 then 20
      else if d.urls_200 > 0 then 10 else 0
    let wrapperPoints : ℚ := if !d.in_wrapper then 20 else 0
    let trafficPoints : ℚ :=
      if d.traffic_seo > 10000 then 10
      else if d.traffic_seo > 1000 then 5 else 0
    min (demandPoints + urlsPoints + wrapperPoints + trafficPoints) 100

/-! ## analysis/http_verifier.py -/

/-- Outcome of the network probe issued by `HTTPVerifier.verify_url`
(`session.head(...)`): a response with a status code, optional `Location`
header and `X-Robots-Tag` header, a timeout (`requests.Timeout`), or another
request failure (`requests.RequestException`). -/
inductive ProbeOutcome where
  | success (status_code : ℤ) (location : Option String) (x_robots : String)
  | timeout
  | reqFailure (msg : String)
deriving Repr, DecidableEq

/-- `HTTPVerificationResult` dataclass (http_verifier.py 15–27), without the
wall-clock fields `response_time_ms` and `verified_at`. -/
structure HTTPVerificationResult where
  url : String
  status_code : ℤ
  is_ok : Bool
  is_redirect : Bool
  redirect_target : Option String
  is_indexable : Bool
  error : Option String
deriving Repr, DecidableEq

/-- `HTTPVerifier.verify_url` (http_verifier.py 94–172) as a function of the
probe's outcome.  `resolveRel base loc` abstracts the
`urlparse`-based resolution of a relative `Location` header
(`f"{parsed.scheme}://{parsed.netloc}{redirect_target}"`). -/
def verifyUrl (resolveRel : String → String → String) (url : String)
    (outcome : ProbeOutcome) : HTTPVerificationResult :=
  match outcome with
  | .success status location xRobots =>
    let isRedirect := status == 301 || status == 302 || status == 307 || status == 308
    let locValue := location.getD ""
    let redirectTarget : Option String :=
      if isRedirect then
        some (if !locValue.isEmpty && !pyStartsWith locValue "http" then
                resolveRel url locValue
              else locValue)
      else none
    let isIndexable := status == 200 && !pyContains (pyLower xRobots) "noindex"
    ⟨url, status, decide (200 ≤ status) && decide (status < 300),
      isRedirect, redirectTarget, isIndexable, none⟩
  | .timeout =>
    ⟨url, 0, false, false, none, false, some "Timeout"⟩
  | .reqFailure msg =>
    ⟨url, 0, false, false, none, false, some msg⟩

/-- `BatchVerificationResult` dataclass (http_verifier.py 29–39), without
the wall-clock field `duration_seconds`. -/
structure BatchVerificationResult where
  total_urls : ℕ
  verified : ℕ
  ok_count : ℕ
  redirect_count : ℕ
  not_found_count : ℕ
  error_count : ℕ
  results : List HTTPVerificationResult
deriving Repr, DecidableEq

/-- `HTTPVerifier.verify_batch` (http_verifier.py 174–227).  `oc` gives the
probe outcome per URL.  The thread pool collects results in completion
order; since each URL's result is a pure function of the URL, every
completion order yields the same multiset and the same statistics, and the
downstream consumer re-keys results by URL, so submission order is used
here. -/
def verifyBatch (resolveRel : String → String → String)
    (oc : String → ProbeOutcome) (urls : List String) : BatchVerificationResult :=
  let results := urls.map (fun u => verifyUrl resolveRel u (oc u))
  ⟨urls.length, results.length,
   (results.filter (·.is_ok)).length,
   (results.filter (·.is_redirect)).length,
   (results.filter (fun r => r.status_code == 404)).length,
   (results.filter (fun r => r.error.isSome)).length,
   results⟩

/-- An input recommendation dict as consumed by
`HTTPVerifier.verify_recommendations`: `url = none` models a recommendation
whose URL field is missing or falsy. -/
structure Recommendation where
  url : Option String
  confidence : String
  recommendation : String
deriving Repr, DecidableEq

/-- The `http_verified` sub-dict attached by `verify_recommendations`
(http_verifier.py 259–266), without the wall-clock `verified_at`. -/
structure HTTPVerifiedInfo where
  status_code : ℤ
  is_ok : Bool
  is_indexable : Bool
  redirect_target : Option String
  error : Option String
deriving Repr, DecidableEq

/-- An output recommendation dict of `verify_recommendations`. -/
structure VerifiedRecommendation where
  url : Option String
  confidence : String
  recommendation : String
  http_verified : Option HTTPVerifiedInfo
deriving Repr, DecidableEq

/-- `verification_map.get(url)`: the dict comprehension
`{r.url: r for r in batch_result.results}` keeps the last entry per key. -/
def verificationMapGet (results : List HTTPVerificationResult) (u : String) :
    Option HTTPVerificationResult :=
  (results.filter (fun r => r.url == u)).getLast?

/-- `HTTPVerifier.verify_recommendations` (http_verifier.py 229–277). -/
def verifyRecommendations (resolveRel : String → String → String)
    (oc : String → ProbeOutcome) (recs : List Recommendation) :
    List VerifiedRecommendation :=
  let urls := recs.filterMap (·.url)
  let batch := verifyBatch resolveRel oc urls
  recs.map (fun rec =>
    let v := match rec.url with
      | none => none
      | some u => verificationMapGet batch.results u
    match v with
    | none => ⟨rec.url, rec.confidence, rec.recommendation, none⟩
    | some v =>
      let info : HTTPVerifiedInfo :=
        ⟨v.status_code, v.is_ok, v.is_indexable, v.redirect_target, v.error⟩
      if !v.is_ok then
        ⟨rec.url, "LOW",
         s!"⚠️ URL no disponible ({v.status_code}). {rec.recommendation}",
         some info⟩
      else
        ⟨rec.url, rec.confidence, rec.recommendation, some info⟩)

/-! ## data/data_config.py — FacetDetector.detect_unknown_patterns -/

/-- One entry of the `all_segments` dict (data_config.py 495–507):
insertion-ordered association of a path segment with its occurrence count
and up to three example URLs. -/
structure SegEntry where
  segment : String
  count : ℕ
  urls : List String
deriving Repr, DecidableEq

/-- Record one occurrence of `seg` in `url` into the insertion-ordered
association list, mirroring the dict update of data_config.py 501–507. -/
def addSegment (acc : List SegEntry) (seg url : String) : List SegEntry :=
  match acc with
  | [] => [⟨seg, 1, [url]⟩]
  | e :: rest =>
    if e.segment = seg then
      ⟨e.segment, e.count + 1,
        if e.urls.length < 3 then e.urls ++ [url] else e.urls⟩ :: rest
    else
      e :: addSegment rest seg url

/-- Python `s.strip('/')`. -/
def stripSlashes (s : String) : String :=
  String.mk (((s.data.dropWhile (· = '/')).reverse.dropWhile (· = '/')).reverse)

/-- Python `str.isalpha` restricted to the ASCII URLs in scope. -/
def pyIsAlpha (s : String) : Bool :=
  !s.isEmpty && s.data.all Char.isAlpha

/-- The per-URL tokenization of `detect_unknown_patterns` (data_config.py
496–507): lowercase the URL, keep the part after the last occurrence of the
category path (`path.split(self.category_path)[-1]`, only when the category
path is non-empty and occurs), strip slashes, split on `/` then on `-`, and
record each purely-alphabetic segment of length > 2. -/
def collectUrlSegments (categoryPath : String) (acc : List SegEntry)
    (url : String) : List SegEntry :=
  let lowered := pyLower url
  let path :=
    if !categoryPath.isEmpty && pyContains lowered categoryPath then
      ((lowered.splitOn categoryPath).getLastD lowered)
    else lowered
  let parts := pySplitChar '/' (stripSlashes path)
  parts.foldl (fun acc part =>
    (pySplitChar '-' part).foldl (fun acc seg =>
      if seg.length > 2 && pyIsAlpha seg then addSegment acc seg url
      else acc) acc) acc

/-- One result entry of `detect_unknown_patterns`. -/
structure UnknownPattern where
  segment : String
  count : ℕ
  example_urls : List String
deriving Repr, DecidableEq

/-- `FacetDetector.detect_unknown_patterns` (data_config.py 493–541) as a
function of `self.urls`, `self.category_path` and the exclusion test of
lines 518–530: `isKnown seg` abstracts «some known pattern's regex matches
`seg`, or `seg` is a known brand» over the fixed
`GENERIC_PATTERNS`/`KNOWN_BRANDS` tables. -/
def detectUnknownPatterns (urls : List String) (categoryPath : String)
    (isKnown : String → Bool) : List UnknownPattern :=
  let allSegments := urls.foldl (collectUrlSegments categoryPath) []
  let unknown := (allSegments.filter (fun e => e.count > 10 && !isKnown e.segment)).map
    (fun e => (⟨e.segment, e.count, e.urls⟩ : UnknownPattern))
  (unknown.mergeSort (fun a b => decide (b.count ≤ a.count))).take 20

/-! ## Helper lemmas -/

theorem mergeSort_nil {α : Type} (le : α → α → Bool) :
    List.mergeSort ([] : List α) le = [] :=
  (List.mergeSort_perm ([] : List α) le).eq_nil

theorem mergeSort_singleton {α : Type} (le : α → α → Bool) (a : α) :
    List.mergeSort [a] le = [a] :=
  (List.mergeSort_perm [a] le).eq_singleton

theorem normalizeDemand_bounds (v : ℚ) (hv : 0 ≤ v) :
    0 ≤ normalizeDemand DEFAULT_THRESHOLDS v ∧
      normalizeDemand DEFAULT_THRESHOLDS v ≤ 100 := by
  simp only [normalizeDemand, DEFAULT_THRESHOLDS]
  norm_num
  split_ifs with h1 h2 h3 h4 <;> push_neg at * <;> constructor <;> linarith

theorem normalizeTraffic_bounds (v : ℚ) (hv : 0 ≤ v) :
    0 ≤ normalizeTraffic DEFAULT_THRESHOLDS v ∧
      normalizeTraffic DEFAULT_THRESHOLDS v ≤ 100 := by
  simp only [normalizeTraffic, DEFAULT_THRESHOLDS]
  norm_num
  split_ifs with h1 h2 h3 h4 <;> push_neg at * <;> constructor <;> linarith

theorem intentScoreOfToken_bounds (t : String) (m : ℚ)
    (h : intentScoreOfToken t = some m) : 0 ≤ m ∧ m ≤ 100 := by
  unfold intentScoreOfToken at h
  split_ifs at h <;> simp_all <;> norm_num [← h]

theorem normalizeIntent_bounds (s : String) :
    0 ≤ normalizeIntent s ∧ normalizeIntent s ≤ 100 := by
  simp only [normalizeIntent]
  split_ifs with h
  · cases hm : (((pySplitChar ',' (pyStrip (pyLower s))).map pyStrip).filterMap
        intentScoreOfToken).max? with
    | none => simp only [hm]; norm_num
    | some m =>
      simp only [hm]
      have hmem := List.max?_mem max_choice hm
      obtain ⟨t, _, hts⟩ := List.mem_filterMap.mp hmem
      exact intentScoreOfToken_bounds t m hts
  all_goals norm_num

theorem pyRoundInt_bounds (q : ℚ) (n : ℤ) (h0 : 0 ≤ q) (hn : q ≤ (n : ℚ)) :
    0 ≤ pyRoundInt q ∧ pyRoundInt q ≤ n := by
  unfold pyRoundInt
  have hfl0 : 0 ≤ ⌊q⌋ := Int.floor_nonneg.mpr h0
  have hfln : ⌊q⌋ ≤ n := by
    have h := Int.floor_le_floor hn
    rwa [Int.floor_intCast] at h
  have hq := Int.floor_add_fract q
  have hup : (1 : ℚ)/2 ≤ Int.fract q → ⌊q⌋ + 1 ≤ n := by
    intro hf
    have hcast : ((⌊q⌋ + 1 : ℤ) : ℚ) < (n : ℚ) + 1 := by push_cast; linarith
    have : (⌊q⌋ + 1 : ℤ) < n + 1 := by exact_mod_cast hcast
    omega
  split_ifs with h1 h2 h3
  · exact ⟨hfl0, hfln⟩
  · exact ⟨by omega, hup (le_of_lt h2)⟩
  · exact ⟨hfl0, hfln⟩
  · exact ⟨by omega, hup (le_of_not_lt h1)⟩

theorem pyRound2_bounds (q : ℚ) (h0 : 0 ≤ q) (h1 : q ≤ 101) :
    0 ≤ pyRound2 q ∧ pyRound2 q ≤ 101 := by
  have hb := pyRoundInt_bounds (q * 100) 10100 (by linarith) (by push_cast; linarith)
  unfold pyRound2
  constructor
  · apply div_nonneg _ (by norm_num)
    exact_mod_cast hb.1
  · rw [div_le_iff₀ (by norm_num : (0:ℚ) < 100)]
    calc ((pyRoundInt (q * 100) : ℤ) : ℚ) ≤ ((10100 : ℤ) : ℚ) := by exact_mod_cast hb.2
    _ = 101 * 100 := by norm_num

theorem weightsTotal_nonneg (w : ScoringWeights) (h : WeightsNonneg w) :
    0 ≤ weightsTotal w := by
  obtain ⟨h1, h2, h3, h4, h5, h6, h7, h8⟩ := h
  unfold weightsTotal
  linarith

theorem postInit_nonneg (w0 w : ScoringWeights) (h : WeightsNonneg w0)
    (hp : postInit w0 = some w) : WeightsNonneg w := by
  obtain ⟨h1, h2, h3, h4, h5, h6, h7, h8⟩ := h
  simp only [postInit] at hp
  by_cases ha : |weightsTotal w0 - 1| > 1/100
  · rw [if_pos ha] at hp
    by_cases hz : weightsTotal w0 = 0
    · rw [if_pos hz] at hp
      simp at hp
    · rw [if_neg hz] at hp
      have htot : 0 < weightsTotal w0 :=
        lt_of_le_of_ne (weightsTotal_nonneg w0 ⟨h1, h2, h3, h4, h5, h6, h7, h8⟩)
          (Ne.symm hz)
      have hf : 0 < (weightsTotal w0)⁻¹ := by positivity
      simp only [Option.some.injEq] at hp
      subst hp
      unfold WeightsNonneg
      exact ⟨by positivity, by positivity, by positivity, by positivity,
        by positivity, by positivity, by positivity, by positivity⟩
  · rw [if_neg ha] at hp
    simp only [Option.some.injEq] at hp
    subst hp
    exact ⟨h1, h2, h3, h4, h5, h6, h7, h8⟩

theorem postInit_total_le (w0 w : ScoringWeights) (hp : postInit w0 = some w) :
    weightsTotal w ≤ 101/100 := by
  simp only [postInit] at hp
  by_cases ha : |weightsTotal w0 - 1| > 1/100
  · rw [if_pos ha] at hp
    by_cases hz : weightsTotal w0 = 0
    · rw [if_pos hz] at hp
      simp at hp
    · rw [if_neg hz] at hp
      simp only [Option.some.injEq] at hp
      have hone : weightsTotal w = weightsTotal w0 * (weightsTotal w0)⁻¹ := by
        rw [← hp]
        dsimp only [weightsTotal]
        ring
      rw [hone, mul_inv_cancel₀ hz]
      norm_num
  · rw [if_neg ha] at hp
    push_neg at ha
    rw [abs_le] at ha
    simp only [Option.some.injEq] at hp
    subst hp
    linarith [ha.2]

theorem mem_analyzeNoDistribution {merged : List MergedRow} {mt : ℤ}
    {l : AuthorityLeak} (h : l ∈ analyzeNoDistribution merged mt) :
    ∃ r ∈ merged, r.status_code = 200 ∧ r.wrapper_link_count = 0 ∧
      mt ≤ r.visits_seo ∧
      l = ⟨r.url, r.visits_seo, 0, "no_distribution",
        (if r.visits_seo > 5000 then "high"
         else if r.visits_seo > 1000 then "medium" else "low"),
        "Añadir seoFilterWrapper con enlaces a facetas relevantes"⟩ := by
  simp only [analyzeNoDistribution, List.mem_mergeSort, List.mem_map,
    List.mem_filter, Bool.and_eq_true, beq_iff_eq, decide_eq_true_eq] at h
  obtain ⟨r, ⟨⟨hr, hs⟩, hw, hv⟩, rfl⟩ := h
  exact ⟨r, hr, hs, hw, hv, rfl⟩

theorem analyzeNoDistribution_complete {merged : List MergedRow}
    {r : MergedRow} (hr : r ∈ merged) (hs : r.status_code = 200)
    (hw : r.wrapper_link_count = 0) {mt : ℤ} (hv : mt ≤ r.visits_seo) :
    (⟨r.url, r.visits_seo, 0, "no_distribution",
      (if r.visits_seo > 5000 then "high"
       else if r.visits_seo > 1000 then "medium" else "low"),
      "Añadir seoFilterWrapper con enlaces a facetas relevantes"⟩ :
        AuthorityLeak) ∈ analyzeNoDistribution merged mt := by
  simp only [analyzeNoDistribution, List.mem_mergeSort, List.mem_map,
    List.mem_filter, Bool.and_eq_true, beq_iff_eq, decide_eq_true_eq]
  exact ⟨r, ⟨⟨hr, hs⟩, hw, hv⟩, rfl⟩

theorem mem_analyzeDilution {merged : List MergedRow} {ml mt : ℤ}
    {l : AuthorityLeak} (h : l ∈ analyzeDilution merged ml mt) :
    ∃ r ∈ merged, r.status_code = 200 ∧ ml ≤ r.wrapper_link_count ∧
      r.visits_seo < mt ∧
      l = ⟨r.url, r.visits_seo, r.wrapper_link_count, "dilution",
        (if (r.wrapper_link_count : ℚ) / ((max r.visits_seo 1 : ℤ) : ℚ) > 0.5
           then "high"
         else if (r.wrapper_link_count : ℚ) / ((max r.visits_seo 1 : ℤ) : ℚ) > 0.1
           then "medium" else "low"),
        s!"Reducir de {r.wrapper_link_count} a máximo {ml} enlaces"⟩ := by
  simp only [analyzeDilution, List.mem_mergeSort, List.mem_map,
    List.mem_filter, Bool.and_eq_true, beq_iff_eq, decide_eq_true_eq] at h
  obtain ⟨r, ⟨⟨hr, hs⟩, hw, hv⟩, rfl⟩ := h
  exact ⟨r, hr, hs, hw, hv, rfl⟩

theorem analyzeDilution_complete {merged : List MergedRow} {r : MergedRow}
    (hr : r ∈ merged) (hs : r.status_code = 200) {ml mt : ℤ}
    (hw : ml ≤ r.wrapper_link_count) (hv : r.visits_seo < mt) :
    (⟨r.url, r.visits_seo, r.wrapper_link_count, "dilution",
      (if (r.wrapper_link_count : ℚ) / ((max r.visits_seo 1 : ℤ) : ℚ) > 0.5
         then "high"
       else if (r.wrapper_link_count : ℚ) / ((max r.visits_seo 1 : ℤ) : ℚ) > 0.1
         then "medium" else "low"),
      s!"Reducir de {r.wrapper_link_count} a máximo {ml} enlaces"⟩ :
        AuthorityLeak) ∈ analyzeDilution merged ml mt := by
  simp only [analyzeDilution, List.mem_mergeSort, List.mem_map,
    List.mem_filter, Bool.and_eq_true, beq_iff_eq, decide_eq_true_eq]
  exact ⟨r, ⟨⟨hr, hs⟩, hw, hv⟩, rfl⟩

theorem pairwise_mergeSort_ge {α β : Type} [LinearOrder β] (key : α → β)
    (l : List α) :
    List.Pairwise (fun a b => key b ≤ key a)
      (l.mergeSort (fun a b => decide (key b ≤ key a))) := by
  have h1 : ∀ (a b c : α), (decide (key b ≤ key a)) = true →
      (decide (key c ≤ key b)) = true → (decide (key c ≤ key a)) = true := by
    intro a b c hab hbc
    simp only [decide_eq_true_eq] at *
    exact le_trans hbc hab
  have h2 : ∀ (a b : α),
      (decide (key b ≤ key a) || decide (key a ≤ key b)) = true := by
    intro a b
    simp only [Bool.or_eq_true, decide_eq_true_eq]
    exact le_total _ _
  exact (List.sorted_mergeSort h1 h2 l).imp (fun h => decide_eq_true_eq.mp h)

/-! ## Claim theorems -/

/-- Claim C2, counterexample: for a LIVE URL with `wrapper_link_count = 20`
and `traffic = 200` (ratio exactly 0.1) the code classifies the leak as
DILUTION with severity `"low"`, not `"medium"` as the claim states: the
boundary test `ratio > 0.1` is strict, so ratio exactly 0.1 falls into the
`else` branch. -/
theorem C2_counterexample :
    analyzeDilution [⟨"u", 200, 20, 200⟩] 10 500 =
      [⟨"u", 200, 20, "dilution", "low", "Reducir de 20 a máximo 10 enlaces"⟩] ∧
    ("low" : String) ≠ "medium" := by
  constructor
  · norm_num [analyzeDilution, mergeSort_singleton]
    rfl
  · decide

/-- Claim C2 (amended): a URL record with status class LIVE (code 200),
`wrapper_link_count = 20` and `traffic = 200` has
`ratio = wrapper_link_count / max(traffic, 1) = 0.1` and is classified as a
DILUTION leak with severity LOW — at the boundary where the ratio is
exactly 0.1, severity resolves to LOW (neither HIGH nor MEDIUM), because
both severity tests are strict inequalities. -/
theorem C2_dilution_boundary (merged : List MergedRow) (r : MergedRow)
    (hr : r ∈ merged) (hs : r.status_code = 200)
    (hw : r.wrapper_link_count = 20) (hv : r.visits_seo = 200) :
    (r.wrapper_link_count : ℚ) / ((max r.visits_seo 1 : ℤ) : ℚ) = 1/10 ∧
    ∃ l ∈ analyzeDilution merged 10 500,
      l.url = r.url ∧ l.leak_type = "dilution" ∧ l.traffic_seo = 200 ∧
      l.wrapper_links = 20 ∧ l.severity = "low" := by
  have hratio : (r.wrapper_link_count : ℚ) / ((max r.visits_seo 1 : ℤ) : ℚ) = 1/10 := by
    rw [hw, hv]
    norm_num
  refine ⟨hratio, _, analyzeDilution_complete hr hs (by omega) (by omega),
    rfl, rfl, hv, hw, ?_⟩
  show (if (r.wrapper_link_count : ℚ) / ((max r.visits_seo 1 : ℤ) : ℚ) > 0.5
      then "high"
    else if (r.wrapper_link_count : ℚ) / ((max r.visits_seo 1 : ℤ) : ℚ) > 0.1
      then "medium" else "low") = "low"
  rw [hratio]
  norm_num

/-- Claim C2, witness for the amended theorem at a concrete input. -/
theorem C2_witness :
    ((20 : ℚ) / ((max (200 : ℤ) 1 : ℤ) : ℚ) = 1/10) ∧
    ∃ l ∈ analyzeDilution [⟨"u", 200, 20, 200⟩] 10 500,
      l.url = "u" ∧ l.leak_type = "dilution" ∧ l.traffic_seo = 200 ∧
      l.wrapper_links = 20 ∧ l.severity = "low" :=
  C2_dilution_boundary [⟨"u", 200, 20, 200⟩] ⟨"u", 200, 20, 200⟩
    (by simp) rfl rfl rfl

/-- Claim C3: every merged URL record with status class LIVE (code 200),
`wrapper_link_count = 0` and traffic at least the default threshold 100
produces a NO_DISTRIBUTION leak whose severity is HIGH when traffic > 5000,
MEDIUM when traffic > 1000 and LOW otherwise. -/
theorem C3_no_distribution_severity (merged : List MergedRow) (r : MergedRow)
    (hr : r ∈ merged) (hs : r.status_code = 200)
    (hw : r.wrapper_link_count = 0) (hv : 100 ≤ r.visits_seo) :
    ∃ l ∈ analyzeNoDistribution merged 100,
      l.url = r.url ∧ l.leak_type = "no_distribution" ∧
      l.traffic_seo = r.visits_seo ∧
      l.severity = (if r.visits_seo > 5000 then "high"
        else if r.visits_seo > 1000 then "medium" else "low") :=
  ⟨_, analyzeNoDistribution_complete hr hs hw hv, rfl, rfl, rfl, rfl⟩

/-- Claim C3, witness: a LIVE URL with no wrapper links and traffic 6000
yields a NO_DISTRIBUTION leak of severity HIGH. -/
theorem C3_witness :
    ∃ l ∈ analyzeNoDistribution [⟨"u", 200, 0, 6000⟩] 100,
      l.url = "u" ∧ l.leak_type = "no_distribution" ∧
      l.traffic_seo = 6000 ∧ l.severity = "high" := by
  obtain ⟨l, hl, h1, h2, h3, h4⟩ :=
    C3_no_distribution_severity [⟨"u", 200, 0, 6000⟩] ⟨"u", 200, 0, 6000⟩
      (by simp) rfl rfl (by norm_num)
  refine ⟨l, hl, h1, h2, h3, ?_⟩
  rw [h4]
  norm_num

/-- Claim C4: within one analysis run (with the default thresholds used by
`get_full_analysis`), no URL is classified both as NO_DISTRIBUTION and as
DILUTION: the selecting conditions `wrapper_link_count == 0` and
`wrapper_link_count ≥ 10` are disjoint, so on a merged table with one row
per URL the two leak lists never share a URL. -/
theorem C4_no_url_in_both (merged : List MergedRow)
    (hnd : merged.Pairwise (fun a b => a.url ≠ b.url)) (url : String)
    (h1 : ∃ l ∈ analyzeNoDistribution merged 100, l.url = url) :
    ∀ l ∈ analyzeDilution merged 10 500, l.url ≠ url := by
  obtain ⟨l1, hl1, hu1⟩ := h1
  obtain ⟨r1, hr1, hs1, hw1, hv1, rfl⟩ := mem_analyzeNoDistribution hl1
  intro l2 hl2 hu2
  obtain ⟨r2, hr2, hs2, hw2, hv2, rfl⟩ := mem_analyzeDilution hl2
  simp only at hu1 hu2
  by_cases heq : r1 = r2
  · subst heq
    omega
  · have hsym : Symmetric (fun (a b : MergedRow) => a.url ≠ b.url) :=
      fun _ _ h => h.symm
    exact (hnd.forall hsym) hr1 hr2 heq (hu1.trans hu2.symm)

/-- Claim C4, witness at a concrete two-row run: the run's NO_DISTRIBUTION
list contains "a", and no entry of its DILUTION list has url "a". -/
theorem C4_witness :
    (analyzeDilution [(⟨"a", 200, 0, 150⟩ : MergedRow), ⟨"b", 200, 15, 100⟩]
        10 500).all (fun l => !(l.url == "a")) = true := by
  have hmain : ∀ l ∈ analyzeDilution
      [(⟨"a", 200, 0, 150⟩ : MergedRow), ⟨"b", 200, 15, 100⟩] 10 500,
      l.url ≠ "a" := by
    apply C4_no_url_in_both
    · refine List.Pairwise.cons ?_ (List.Pairwise.cons (by simp) List.Pairwise.nil)
      rintro r hr
      simp only [List.mem_singleton] at hr
      subst hr
      decide
    · exact ⟨_, analyzeNoDistribution_complete (r := ⟨"a", 200, 0, 150⟩)
        (by simp) rfl rfl (by norm_num), rfl⟩
  rw [List.all_eq_true]
  intro l hl
  simpa using hmain l hl

/-- Claim C10: when the analyzer is built without a usable traffic table
(`adobe_urls_df` absent or lacking `url_full`, modelled by `none`, or
empty, modelled by `some []`), every merged row has `visits_seo = 0`, and
`analyze_no_distribution` with any positive `min_traffic` returns the empty
list. -/
theorem C10_no_traffic_no_leaks (crawl : List CrawlRow) :
    (∀ r ∈ mergeData crawl none, r.visits_seo = 0) ∧
    (∀ r ∈ mergeData crawl (some []), r.visits_seo = 0) ∧
    ∀ mt : ℤ, 1 ≤ mt →
      analyzeNoDistribution (mergeData crawl none) mt = [] ∧
      analyzeNoDistribution (mergeData crawl (some [])) mt = [] := by
  have hempty : mergeData crawl (some []) = mergeData crawl none := by
    simp [mergeData]
  have hnone : ∀ r ∈ mergeData crawl none, r.visits_seo = 0 := by
    intro r hr
    simp only [mergeData, List.mem_map] at hr
    obtain ⟨c, _, rfl⟩ := hr
    rfl
  have hleak : ∀ mt : ℤ, 1 ≤ mt →
      analyzeNoDistribution (mergeData crawl none) mt = [] := by
    intro mt hmt
    have hfil : ((mergeData crawl none).filter
        (fun r => r.status_code == 200)).filter
          (fun r => r.wrapper_link_count == 0 && decide (r.visits_seo ≥ mt)) = [] := by
      rw [List.filter_eq_nil_iff]
      intro r hrm
      have h0 := hnone r (List.mem_of_mem_filter hrm)
      simp only [Bool.and_eq_true, beq_iff_eq, decide_eq_true_eq, not_and]
      intro _
      omega
    simp only [analyzeNoDistribution, hfil, List.map_nil, mergeSort_nil]
  exact ⟨hnone, fun r hr => hnone r (hempty ▸ hr),
    fun mt hmt => ⟨hleak mt hmt, by rw [hempty]; exact hleak mt hmt⟩⟩

/-- Claim C10, witness at a concrete crawl and the default threshold. -/
theorem C10_witness :
    analyzeNoDistribution (mergeData [⟨"u", 200, 0⟩] none) 100 = [] :=
  ((C10_no_traffic_no_leaks [⟨"u", 200, 0⟩]).2.2 100 (by norm_num)).1

/-- Claim C6: in the full authority analysis, `top_leaks` holds only
NO_DISTRIBUTION and DILUTION leaks, is sorted by `traffic_seo` in
descending order, and has at most 20 entries. -/
theorem C6_top_leaks (crawl : List CrawlRow) (adobe : Option (List AdobeRow))
    (matcher : String → String → Bool) :
    (getFullAnalysis crawl adobe matcher).top_leaks.length ≤ 20 ∧
    List.Pairwise (fun a b => b.traffic_seo ≤ a.traffic_seo)
      (getFullAnalysis crawl adobe matcher).top_leaks ∧
    ∀ l ∈ (getFullAnalysis crawl adobe matcher).top_leaks,
      l.leak_type = "no_distribution" ∨ l.leak_type = "dilution" := by
  simp only [getFullAnalysis]
  refine ⟨?_, ?_, ?_⟩
  · rw [List.length_take]
    exact min_le_left _ _
  · exact List.Pairwise.sublist (List.take_sublist _ _)
      (pairwise_mergeSort_ge AuthorityLeak.traffic_seo _)
  · intro l hl
    have hmem := List.mem_of_mem_take hl
    rw [List.mem_mergeSort] at hmem
    rcases List.mem_append.mp hmem with h | h
    · obtain ⟨r, _, _, _, _, rfl⟩ := mem_analyzeNoDistribution h
      left
      rfl
    · obtain ⟨r, _, _, _, _, rfl⟩ := mem_analyzeDilution h
      right
      rfl

/-- Claim C6, witness at a concrete one-URL run whose single leak is a
NO_DISTRIBUTION leak. -/
theorem C6_witness :
    ∃ l ∈ (getFullAnalysis [⟨"a", 200, 0⟩] (some [⟨"a", 150⟩])
        (fun _ _ => false)).top_leaks,
      l.leak_type = "no_distribution" ∨ l.leak_type = "dilution" := by
  have htop : (getFullAnalysis [⟨"a", 200, 0⟩] (some [⟨"a", 150⟩])
      (fun _ _ => false)).top_leaks =
      [⟨"a", 150, 0, "no_distribution", "low",
        "Añadir seoFilterWrapper con enlaces a facetas relevantes"⟩] := by
    norm_num [getFullAnalysis, mergeData, analyzeNoDistribution,
      analyzeDilution, analyzeDeadEnds, mergeSort_singleton, mergeSort_nil]
  refine ⟨_, by rw [htop]; exact List.mem_singleton.mpr rfl, ?_⟩
  exact (C6_top_leaks [⟨"a", 200, 0⟩] (some [⟨"a", 150⟩]) (fun _ _ => false)).2.2
    _ (by rw [htop]; exact List.mem_singleton.mpr rfl)

theorem weighted_sum_bounds (w : ScoringWeights) (hn : WeightsNonneg w)
    (hsum : weightsTotal w ≤ 101/100) (n1 n2 n3 n4 n5 n6 n7 n8 : ℚ)
    (b1 : 0 ≤ n1 ∧ n1 ≤ 100) (b2 : 0 ≤ n2 ∧ n2 ≤ 100)
    (b3 : 0 ≤ n3 ∧ n3 ≤ 100) (b4 : 0 ≤ n4 ∧ n4 ≤ 100)
    (b5 : 0 ≤ n5 ∧ n5 ≤ 100) (b6 : 0 ≤ n6 ∧ n6 ≤ 100)
    (b7 : 0 ≤ n7 ∧ n7 ≤ 100) (b8 : 0 ≤ n8 ∧ n8 ≤ 100) :
    0 ≤ n1 * w.demand_semrush + n2 * w.demand_kp + n3 * w.traffic_gsc +
        n4 * w.traffic_adobe + n5 * w.demand_filters +
        n6 * w.commercial_intent + n7 * w.longtail_coverage +
        n8 * w.revenue_potential ∧
      n1 * w.demand_semrush + n2 * w.demand_kp + n3 * w.traffic_gsc +
        n4 * w.traffic_adobe + n5 * w.demand_filters +
        n6 * w.commercial_intent + n7 * w.longtail_coverage +
        n8 * w.revenue_potential ≤ 101 := by
  obtain ⟨h1, h2, h3, h4, h5, h6, h7, h8⟩ := hn
  unfold weightsTotal at hsum
  constructor
  · have t1 := mul_nonneg b1.1 h1
    have t2 := mul_nonneg b2.1 h2
    have t3 := mul_nonneg b3.1 h3
    have t4 := mul_nonneg b4.1 h4
    have t5 := mul_nonneg b5.1 h5
    have t6 := mul_nonneg b6.1 h6
    have t7 := mul_nonneg b7.1 h7
    have t8 := mul_nonneg b8.1 h8
    linarith
  · have t1 := mul_le_mul_of_nonneg_right b1.2 h1
    have t2 := mul_le_mul_of_nonneg_right b2.2 h2
    have t3 := mul_le_mul_of_nonneg_right b3.2 h3
    have t4 := mul_le_mul_of_nonneg_right b4.2 h4
    have t5 := mul_le_mul_of_nonneg_right b5.2 h5
    have t6 := mul_le_mul_of_nonneg_right b6.2 h6
    have t7 := mul_le_mul_of_nonneg_right b7.2 h7
    have t8 := mul_le_mul_of_nonneg_right b8.2 h8
    linarith

theorem minScale_bounds (x c : ℚ) (hx : 0 ≤ x) (hc : 0 < c) :
    0 ≤ min (x / c) 1 * 100 ∧ min (x / c) 1 * 100 ≤ 100 := by
  constructor
  · exact mul_nonneg (le_min (by positivity) (by norm_num)) (by norm_num)
  · calc min (x / c) 1 * 100 ≤ 1 * 100 :=
        mul_le_mul_of_nonneg_right (min_le_right _ _) (by norm_num)
    _ = 100 := by norm_num

/-- Claim C1, counterexample: the weight vector (1.005, 0, …, 0) sums to
1.005, which passes the ±0.01 tolerance check unnormalised, and a facet
with `demand_semrush` at the very-high threshold then scores
`total_score = 100.5 > 100`. -/
theorem C1_counterexample :
    postInit ⟨201/200, 0, 0, 0, 0, 0, 0, 0⟩ =
      some ⟨201/200, 0, 0, 0, 0, 0, 0, 0⟩ ∧
    (scoreFacet ⟨201/200, 0, 0, 0, 0, 0, 0, 0⟩ DEFAULT_THRESHOLDS "Marcas"
      100000 0 0 0 0 "" 0 0).total_score = 201/2 ∧
    ¬ (scoreFacet ⟨201/200, 0, 0, 0, 0, 0, 0, 0⟩ DEFAULT_THRESHOLDS "Marcas"
      100000 0 0 0 0 "" 0 0).total_score ≤ 100 := by
  refine ⟨?_, ?_, ?_⟩
  · norm_num [postInit, weightsTotal, abs_le]
  · norm_num [scoreFacet, normalizeDemand, normalizeTraffic, normalizeIntent,
      DEFAULT_THRESHOLDS, pyRound2, pyRoundInt]
  · norm_num [scoreFacet, normalizeDemand, normalizeTraffic, normalizeIntent,
      DEFAULT_THRESHOLDS, pyRound2, pyRoundInt]

/-- Claim C1 (amended): for non-negative numeric inputs, the default
thresholds, and any non-negative weight vector accepted by
`ScoringWeights.__post_init__`, `total_score` lies in [0, 101] (not
[0, 100]: a raw weight sum within the ±0.01 tolerance is used
unnormalised, so the sum of weights can be as large as 1.01). -/
theorem C1_total_score_bounds (w0 w : ScoringWeights) (hw0 : WeightsNonneg w0)
    (hp : postInit w0 = some w) (fn : String)
    (ds dk tg ta df : ℚ) (intent : String) (lc : ℤ) (rv : ℚ)
    (h1 : 0 ≤ ds) (h2 : 0 ≤ dk) (h3 : 0 ≤ tg) (h4 : 0 ≤ ta) (h5 : 0 ≤ df)
    (h6 : 0 ≤ lc) (h7 : 0 ≤ rv) :
    0 ≤ (scoreFacet w DEFAULT_THRESHOLDS fn ds dk tg ta df intent lc rv).total_score ∧
      (scoreFacet w DEFAULT_THRESHOLDS fn ds dk tg ta df intent lc rv).total_score ≤ 101 := by
  have hwn := postInit_nonneg w0 w hw0 hp
  have hsum := postInit_total_le w0 w hp
  have hlc : (0 : ℚ) ≤ (lc : ℚ) := by exact_mod_cast h6
  have hT := weighted_sum_bounds w hwn hsum
    (normalizeDemand DEFAULT_THRESHOLDS ds) (normalizeDemand DEFAULT_THRESHOLDS dk)
    (normalizeTraffic DEFAULT_THRESHOLDS tg) (normalizeTraffic DEFAULT_THRESHOLDS ta)
    (normalizeDemand DEFAULT_THRESHOLDS df) (normalizeIntent intent)
    (min ((lc : ℚ) / 100) 1 * 100) (min (rv / 100000) 1 * 100)
    (normalizeDemand_bounds ds h1) (normalizeDemand_bounds dk h2)
    (normalizeTraffic_bounds tg h3) (normalizeTraffic_bounds ta h4)
    (normalizeDemand_bounds df h5) (normalizeIntent_bounds intent)
    (minScale_bounds _ 100 hlc (by norm_num))
    (minScale_bounds _ 100000 h7 (by norm_num))
  simp only [scoreFacet]
  exact pyRound2_bounds _ hT.1 hT.2

/-- Claim C1, witness: the default weight vector (sum 1) with concrete
non-negative inputs stays in [0, 101]. -/
theorem C1_witness :
    0 ≤ (scoreFacet ⟨15/100, 15/100, 15/100, 10/100, 20/100, 10/100, 5/100, 10/100⟩
        DEFAULT_THRESHOLDS "Marcas" 3 0 0 0 0 "" 0 0).total_score ∧
      (scoreFacet ⟨15/100, 15/100, 15/100, 10/100, 20/100, 10/100, 5/100, 10/100⟩
        DEFAULT_THRESHOLDS "Marcas" 3 0 0 0 0 "" 0 0).total_score ≤ 101 :=
  C1_total_score_bounds
    ⟨15/100, 15/100, 15/100, 10/100, 20/100, 10/100, 5/100, 10/100⟩
    ⟨15/100, 15/100, 15/100, 10/100, 20/100, 10/100, 5/100, 10/100⟩
    (by norm_num [WeightsNonneg]) (by norm_num [postInit, weightsTotal])
    "Marcas" 3 0 0 0 0 "" 0 0
    (by norm_num) (by norm_num) (by norm_num) (by norm_num) (by norm_num)
    (by norm_num) (by norm_num)

/-- Claim C5, counterexample: the all-zero weight vector has raw sum 0,
fails the tolerance check, and the renormalisation `1.0 / total` raises
`ZeroDivisionError` (modelled by `none`): construction does fail. -/
theorem C5_counterexample : postInit ⟨0, 0, 0, 0, 0, 0, 0, 0⟩ = none := by
  norm_num [postInit, weightsTotal]

theorem weightsTotal_scaled (w : ScoringWeights) (hz : weightsTotal w ≠ 0) :
    weightsTotal ⟨w.demand_semrush * (1 / weightsTotal w),
      w.demand_kp * (1 / weightsTotal w), w.traffic_gsc * (1 / weightsTotal w),
      w.traffic_adobe * (1 / weightsTotal w),
      w.demand_filters * (1 / weightsTotal w),
      w.commercial_intent * (1 / weightsTotal w),
      w.longtail_coverage * (1 / weightsTotal w),
      w.revenue_potential * (1 / weightsTotal w)⟩ = 1 := by
  have h : weightsTotal ⟨w.demand_semrush * (1 / weightsTotal w),
      w.demand_kp * (1 / weightsTotal w), w.traffic_gsc * (1 / weightsTotal w),
      w.traffic_adobe * (1 / weightsTotal w),
      w.demand_filters * (1 / weightsTotal w),
      w.commercial_intent * (1 / weightsTotal w),
      w.longtail_coverage * (1 / weightsTotal w),
      w.revenue_potential * (1 / weightsTotal w)⟩ =
      weightsTotal w * (1 / weightsTotal w) := by
    dsimp only [weightsTotal]
    ring
  rw [h, mul_one_div, div_self hz]

/-- Claim C5 (amended): for every weight vector whose raw sum is nonzero,
`ScoringWeights.__post_init__` succeeds and yields weights summing to 1
within the 0.01 tolerance (sums already within tolerance are kept; other
nonzero sums are rescaled to sum exactly 1); a zero raw sum makes
construction fail with `ZeroDivisionError`. -/
theorem C5_weights_normalized (w : ScoringWeights) (hz : weightsTotal w ≠ 0) :
    ∃ w', postInit w = some w' ∧ |weightsTotal w' - 1| ≤ 1/100 := by
  simp only [postInit]
  by_cases ha : |weightsTotal w - 1| > 1/100
  · rw [if_pos ha, if_neg hz]
    refine ⟨_, rfl, ?_⟩
    rw [weightsTotal_scaled w hz]
    norm_num
  · rw [if_neg ha]
    push_neg at ha
    exact ⟨w, rfl, ha⟩

/-- Claim C5, witness: the vector (1, 1, 0, …, 0) with raw sum 2 is
renormalised to sum 1. -/
theorem C5_witness :
    ∃ w', postInit ⟨1, 1, 0, 0, 0, 0, 0, 0⟩ = some w' ∧
      |weightsTotal w' - 1| ≤ 1/100 :=
  C5_weights_normalized ⟨1, 1, 0, 0, 0, 0, 0, 0⟩ (by norm_num [weightsTotal])

/-- Claim C7, counterexample: a facet with `url_count_live = 0`,
`url_count_not_found = 40` and total demand 60000 gets opportunity score 20
(the `urls_200 == 0` branch with demand in (50000, 100000]), not 90: no
rule in `_calculate_opportunity_score` ever returns 90. -/
theorem C7_counterexample :
    calculateOpportunityScore ⟨0, 40, 60000, 0, 0, false⟩ = 20 ∧
    calculateOpportunityScore ⟨0, 40, 60000, 0, 0, false⟩ ≠ 90 := by
  constructor <;> norm_num [calculateOpportunityScore]

/-- Claim C7 (amended): every facet with no live URLs and total demand in
(50000, 100000] — in particular `url_count_live = 0`,
`url_count_not_found = 40`, traffic 0, demand 60000 — gets opportunity
score 20, regardless of its traffic and wrapper state. -/
theorem C7_zero_live_urls_score (d : FacetData) (h0 : d.urls_200 = 0)
    (hlo : 50000 < d.demand_adobe + d.demand_keywords)
    (hhi : d.demand_adobe + d.demand_keywords ≤ 100000) :
    calculateOpportunityScore d = 20 := by
  simp only [calculateOpportunityScore]
  rw [if_pos h0,
    if_neg (by omega : ¬ d.demand_adobe + d.demand_keywords > 100000),
    if_pos (by omega : d.demand_adobe + d.demand_keywords > 50000)]

/-- Claim C7, witness for the amended theorem at the scenario's input. -/
theorem C7_witness :
    calculateOpportunityScore ⟨0, 40, 60000, 0, 0, false⟩ = 20 :=
  C7_zero_live_urls_score ⟨0, 40, 60000, 0, 0, false⟩ rfl (by norm_num)
    (by norm_num)

theorem getLast?_eq_of_all_eq {α : Type} {l : List α} {u : α} (hne : l ≠ [])
    (hall : ∀ x ∈ l, x = u) : l.getLast? = some u := by
  rw [List.getLast?_eq_getLast l hne]
  exact congrArg some (hall _ (List.getLast_mem hne))

theorem verifyUrl_url (resolveRel : String → String → String) (u : String)
    (o : ProbeOutcome) : (verifyUrl resolveRel u o).url = u := by
  cases o <;> rfl

theorem verificationMapGet_verifyBatch (resolveRel : String → String → String)
    (oc : String → ProbeOutcome) (urls : List String) (u : String)
    (hu : u ∈ urls) :
    verificationMapGet (verifyBatch resolveRel oc urls).results u =
      some (verifyUrl resolveRel u (oc u)) := by
  simp only [verifyBatch, verificationMapGet]
  rw [List.filter_map, List.getLast?_map]
  have hfil : urls.filter
      ((fun r => r.url == u) ∘ (fun x => verifyUrl resolveRel x (oc x))) =
      urls.filter (fun x => x == u) := by
    apply List.filter_congr
    intro x _
    simp [Function.comp, verifyUrl_url]
  rw [hfil]
  have hne : urls.filter (fun x => x == u) ≠ [] := by
    intro hctr
    have hm : u ∈ urls.filter (fun x => x == u) :=
      List.mem_filter.mpr ⟨hu, by simp⟩
    rw [hctr] at hm
    exact absurd hm (List.not_mem_nil u)
  rw [getLast?_eq_of_all_eq hne
    (fun x hx => by simpa using (List.mem_filter.mp hx).2)]
  rfl

/-- Claim C8: `verify_recommendations` returns exactly one output per input
recommendation, and every recommendation whose URL's verification probe
returned an error or a non-2xx status has its confidence set to `"LOW"`
and its recommendation text annotated with an unavailability note that
preserves the original text as a suffix. -/
theorem C8_verified_recommendations (resolveRel : String → String → String)
    (oc : String → ProbeOutcome) (recs : List Recommendation) :
    (verifyRecommendations resolveRel oc recs).length = recs.length ∧
    ∀ (i : ℕ) (rec : Recommendation) (u : String),
      recs[i]? = some rec → rec.url = some u →
      ((verifyUrl resolveRel u (oc u)).error.isSome = true ∨
        ¬ (200 ≤ (verifyUrl resolveRel u (oc u)).status_code ∧
           (verifyUrl resolveRel u (oc u)).status_code < 300)) →
      ∃ out, (verifyRecommendations resolveRel oc recs)[i]? = some out ∧
        out.confidence = "LOW" ∧
        ∃ note, out.recommendation = note ++ rec.recommendation := by
  constructor
  · simp [verifyRecommendations]
  · intro i rec u hi hurl hbad
    have hmemrec : rec ∈ recs := List.getElem?_mem hi
    have humem : u ∈ recs.filterMap (·.url) :=
      List.mem_filterMap.mpr ⟨rec, hmemrec, hurl⟩
    have hmap := verificationMapGet_verifyBatch resolveRel oc
      (recs.filterMap (·.url)) u humem
    have hok : (verifyUrl resolveRel u (oc u)).is_ok = false := by
      rcases hbad with hb | hb
      · cases ho : oc u with
        | success s loc xr =>
          rw [ho] at hb
          simp [verifyUrl] at hb
        | timeout => rfl
        | reqFailure m => rfl
      · cases ho : oc u with
        | success s loc xr =>
          rw [ho] at hb
          simp only [verifyUrl] at hb ⊢
          rcases not_and_or.mp hb with hc | hc
          · simp [decide_eq_false hc]
          · simp [decide_eq_false hc]
        | timeout => rfl
        | reqFailure m => rfl
    simp only [verifyRecommendations]
    rw [List.getElem?_map, hi, Option.map_some']
    refine ⟨_, rfl, ?_, ?_⟩
    · simp only [hurl, hmap, hok]
      rfl
    · refine ⟨"⚠️ URL no disponible (" ++
        toString (verifyUrl resolveRel u (oc u)).status_code ++ "). ", ?_⟩
      simp only [hurl, hmap, hok]
      exact String.append_empty _

/-- Claim C8, witness: one recommendation whose URL probes as 404 comes
back downgraded to LOW with the original text preserved. -/
theorem C8_witness :
    ∃ out, (verifyRecommendations (fun _ loc => loc)
        (fun _ => ProbeOutcome.success 404 none "")
        [⟨some "https://x/a", "HIGH", "Añadir enlaces"⟩])[0]? = some out ∧
      out.confidence = "LOW" ∧
      ∃ note, out.recommendation = note ++ "Añadir enlaces" := by
  have h := (C8_verified_recommendations (fun _ loc => loc)
      (fun _ => ProbeOutcome.success 404 none "")
      [⟨some "https://x/a", "HIGH", "Añadir enlaces"⟩]).2 0
      ⟨some "https://x/a", "HIGH", "Añadir enlaces"⟩ "https://x/a" rfl rfl ?_
  · exact h
  · right
    norm_num [verifyUrl]

theorem foldl_preserves {α β : Type} (P : β → Prop) (f : β → α → β)
    (hf : ∀ b a, P b → P (f b a)) :
    ∀ (l : List α) (b : β), P b → P (l.foldl f b) := by
  intro l
  induction l with
  | nil => exact fun b hb => hb
  | cons x xs ih => exact fun b hb => ih (f b x) (hf b x hb)

theorem addSegment_urls_le (acc : List SegEntry) (seg url : String)
    (h : ∀ e ∈ acc, e.urls.length ≤ 3) :
    ∀ e ∈ addSegment acc seg url, e.urls.length ≤ 3 := by
  induction acc with
  | nil =>
    intro e he
    simp only [addSegment, List.mem_singleton] at he
    subst he
    simp
  | cons a rest ih =>
    intro e he
    simp only [addSegment] at he
    split_ifs at he with hseg hlen
    · rcases List.mem_cons.mp he with rfl | hmem
      · have ha := h a (by simp)
        simp only [List.length_append, List.length_singleton]
        omega
      · exact h e (List.mem_cons_of_mem a hmem)
    · rcases List.mem_cons.mp he with rfl | hmem
      · exact h a (by simp)
      · exact h e (List.mem_cons_of_mem a hmem)
    · rcases List.mem_cons.mp he with rfl | hmem
      · exact h _ (by simp)
      · exact ih (fun e' he' => h e' (List.mem_cons_of_mem a he')) e hmem

theorem collectUrlSegments_urls_le (categoryPath : String)
    (acc : List SegEntry) (url : String)
    (h : ∀ e ∈ acc, e.urls.length ≤ 3) :
    ∀ e ∈ collectUrlSegments categoryPath acc url, e.urls.length ≤ 3 := by
  have hstep : ∀ (b : List SegEntry) (part : String),
      (∀ e ∈ b, e.urls.length ≤ 3) →
      ∀ e ∈ (pySplitChar '-' part).foldl
          (fun acc seg => if seg.length > 2 && pyIsAlpha seg
            then addSegment acc seg url else acc) b,
        e.urls.length ≤ 3 := by
    intro b part hb
    refine foldl_preserves (fun b => ∀ e ∈ b, e.urls.length ≤ 3)
      (fun acc seg => if seg.length > 2 && pyIsAlpha seg
        then addSegment acc seg url else acc) ?_ _ b hb
    intro b' seg hb'
    dsimp only
    by_cases hc : seg.length > 2 && pyIsAlpha seg
    · rw [if_pos hc]
      exact addSegment_urls_le b' seg url hb'
    · rw [if_neg hc]
      exact hb'
  simp only [collectUrlSegments]
  exact foldl_preserves (fun b => ∀ e ∈ b, e.urls.length ≤ 3)
    (fun acc part => (pySplitChar '-' part).foldl
      (fun acc seg => if seg.length > 2 && pyIsAlpha seg
        then addSegment acc seg url else acc) acc)
    hstep _ acc h

/-- Claim C9 (amended): `detect_unknown_patterns` returns the mined path
segments that occur more than 10 times across the corpus (occurrences, not
distinct URLs: a segment occurring several times in one URL counts once per
occurrence) and are not known patterns/brands, sorted by occurrence count
descending, capped at 20 results, each with at most 3 example URLs; when at
most 20 segments qualify, every qualifying segment is returned. -/
theorem C9_unknown_patterns (urls : List String) (categoryPath : String)
    (isKnown : String → Bool) :
    (detectUnknownPatterns urls categoryPath isKnown).length ≤ 20 ∧
    List.Pairwise (fun a b => b.count ≤ a.count)
      (detectUnknownPatterns urls categoryPath isKnown) ∧
    (∀ e ∈ detectUnknownPatterns urls categoryPath isKnown,
      10 < e.count ∧ isKnown e.segment = false ∧ e.example_urls.length ≤ 3) ∧
    (((urls.foldl (collectUrlSegments categoryPath) []).filter
        (fun e => e.count > 10 && !isKnown e.segment)).length ≤ 20 →
      ∀ s ∈ (urls.foldl (collectUrlSegments categoryPath) []).filter
          (fun e => e.count > 10 && !isKnown e.segment),
        (⟨s.segment, s.count, s.urls⟩ : UnknownPattern) ∈
          detectUnknownPatterns urls categoryPath isKnown) := by
  refine ⟨?_, ?_, ?_, ?_⟩
  · simp only [detectUnknownPatterns]
    rw [List.length_take]
    exact min_le_left _ _
  · simp only [detectUnknownPatterns]
    exact List.Pairwise.sublist (List.take_sublist _ _)
      (pairwise_mergeSort_ge UnknownPattern.count _)
  · intro e he
    simp only [detectUnknownPatterns] at he
    have hmem := List.mem_of_mem_take he
    rw [List.mem_mergeSort] at hmem
    obtain ⟨s, hs, rfl⟩ := List.mem_map.mp hmem
    obtain ⟨hsmem, hcond⟩ := List.mem_filter.mp hs
    rw [Bool.and_eq_true] at hcond
    obtain ⟨hcount, hknown⟩ := hcond
    have hinv : ∀ e' ∈ urls.foldl (collectUrlSegments categoryPath) [],
        e'.urls.length ≤ 3 :=
      foldl_preserves (fun b => ∀ e' ∈ b, e'.urls.length ≤ 3) _
        (fun b a hb => collectUrlSegments_urls_le categoryPath b a hb)
        urls [] (by simp)
    exact ⟨by simpa using hcount, by simpa using hknown, hinv s hsmem⟩
  · intro hlen s hs
    simp only [detectUnknownPatterns]
    have hlen2 : (((urls.foldl (collectUrlSegments categoryPath) []).filter
        (fun e => e.count > 10 && !isKnown e.segment)).map
          (fun e => (⟨e.segment, e.count, e.urls⟩ : UnknownPattern))).length ≤ 20 := by
      rw [List.length_map]
      exact hlen
    have hlen3 : ((((urls.foldl (collectUrlSegments categoryPath) []).filter
        (fun e => e.count > 10 && !isKnown e.segment)).map
          (fun e => (⟨e.segment, e.count, e.urls⟩ : UnknownPattern))).mergeSort
            (fun a b => decide (b.count ≤ a.count))).length ≤ 20 := by
      rw [(List.mergeSort_perm _ _).length_eq]
      exact hlen2
    rw [List.take_of_length_le hlen3, List.mem_mergeSort]
    exact List.mem_map.mpr ⟨s, hs, rfl⟩

/-- Claim C9, counterexample: on a corpus of 6 URLs, each containing the
unknown token `zzz` twice in its path, the token accumulates 12
occurrences (> 10) and is returned, although it appears in only 6 URLs —
the `count > 10` test counts occurrences, not distinct URLs, so the claim
«returns exactly the tokens that appear in more than 10 URLs» fails. -/
theorem C9_counterexample :
    (detectUnknownPatterns ["https://s/a/zzz-zzz", "https://s/b/zzz-zzz",
        "https://s/c/zzz-zzz", "https://s/d/zzz-zzz", "https://s/e/zzz-zzz",
        "https://s/f/zzz-zzz"] "" (fun _ => false)).map
      UnknownPattern.segment = ["zzz"] ∧
    (["https://s/a/zzz-zzz", "https://s/b/zzz-zzz", "https://s/c/zzz-zzz",
      "https://s/d/zzz-zzz", "https://s/e/zzz-zzz",
      "https://s/f/zzz-zzz"] : List String).length = 6 := by
  have hfold :
      (["https://s/a/zzz-zzz", "https://s/b/zzz-zzz", "https://s/c/zzz-zzz",
        "https://s/d/zzz-zzz", "https://s/e/zzz-zzz",
        "https://s/f/zzz-zzz"].foldl (collectUrlSegments "") []) =
        [⟨"zzz", 12, ["https://s/a/zzz-zzz", "https://s/a/zzz-zzz",
          "https://s/b/zzz-zzz"]⟩] := by
    decide
  constructor
  · simp only [detectUnknownPatterns, hfold]
    norm_num [mergeSort_singleton]
  · rfl

/-- Claim C9, witness for the amended theorem on the same corpus: the
returned entry has more than 10 occurrences, is not known, and carries at
most 3 example URLs; and as at most 20 segments qualify, the qualifying
segment is returned. -/
theorem C9_witness :
    (10 < (12 : ℕ) ∧ (fun (_ : String) => false) "zzz" = false ∧
      (["https://s/a/zzz-zzz", "https://s/a/zzz-zzz",
        "https://s/b/zzz-zzz"] : List String).length ≤ 3) ∧
    (⟨"zzz", 12, ["https://s/a/zzz-zzz", "https://s/a/zzz-zzz",
        "https://s/b/zzz-zzz"]⟩ : UnknownPattern) ∈
      detectUnknownPatterns ["https://s/a/zzz-zzz", "https://s/b/zzz-zzz",
        "https://s/c/zzz-zzz", "https://s/d/zzz-zzz", "https://s/e/zzz-zzz",
        "https://s/f/zzz-zzz"] "" (fun _ => false) := by
  have hfold :
      (["https://s/a/zzz-zzz", "https://s/b/zzz-zzz", "https://s/c/zzz-zzz",
        "https://s/d/zzz-zzz", "https://s/e/zzz-zzz",
        "https://s/f/zzz-zzz"].foldl (collectUrlSegments "") []) =
        [⟨"zzz", 12, ["https://s/a/zzz-zzz", "https://s/a/zzz-zzz",
          "https://s/b/zzz-zzz"]⟩] := by
    decide
  have h := C9_unknown_patterns ["https://s/a/zzz-zzz", "https://s/b/zzz-zzz",
    "https://s/c/zzz-zzz", "https://s/d/zzz-zzz", "https://s/e/zzz-zzz",
    "https://s/f/zzz-zzz"] "" (fun _ => false)
  have hmem := h.2.2.2 (by rw [hfold]; decide)
    ⟨"zzz", 12, ["https://s/a/zzz-zzz", "https://s/a/zzz-zzz",
      "https://s/b/zzz-zzz"]⟩ (by rw [hfold]; decide)
  exact ⟨h.2.2.1 _ hmem, hmem⟩

end FacetAnalyzer
